import Mathlib

/-!
Verification of the rstun server half: a shallow embedding of
`src/server.rs` and `src/tcp/tcp_server.rs` (the In/Out login handshake,
the allocated-port set, the session loops and the TCP access listener),
together with theorems settling the specification claims about them.

Machine integers carry no arithmetic here (ports are only compared for
equality), so ports are modelled as `Nat`.  I/O outcomes (address parsing,
TCP bind, TCP start, message receipt) are parameters of the embedded
functions, and the I/O the code performs is recorded in an explicit event
trace, in the order the source performs it.
-/

namespace Rstun

/-- Socket address as used by the server: an exact host/port pair.
The allow-list check in `authenticate_connection` compares full addresses,
and the port set stores only the port. -/
structure SockAddr where
  host : String
  port : Nat
deriving DecidableEq, Repr

/-- The tunnel messages visible at the server (`TunnelMessage` in the
source).  `otherMsg` stands for every further variant, all of which fall
into the wildcard arm of `authenticate_connection`. -/
inductive TunnelMessage where
  | ReqOutLogin (password accessServerAddr : String)
  | ReqInLogin (password accessServerAddr : String)
  | RespSuccess
  | RespFailure (reason : String)
  | otherMsg
deriving DecidableEq, Repr

/-- Events recorded by the embedded handshake, in source order:
acquiring/releasing the `access_server_ports` mutex, sending a response
message on the handshake stream, attempting the AccessServer TCP bind,
attempting to start its accept task, and pushing a port into the vector. -/
inductive Event where
  | lockAcquire
  | lockRelease
  | sendMsg (m : TunnelMessage)
  | ioBind (port : Nat)
  | ioStart
  | insertPort (port : Nat)
deriving DecidableEq, Repr

/-- Result of `authenticate_connection`: a `TunnelType` on success
(`Out` with the downstream address, `In` with the bound port), or the
`anyhow` error message on failure. -/
inductive AuthResult where
  | okOut (downstreamAddr : SockAddr)
  | okIn (port : Nat)
  | err (msg : String)
deriving DecidableEq, Repr

/-- Outcome of one run of `authenticate_connection`: its result, the
`access_server_ports` vector after the run, and the trace of lock and
I/O events it performed. -/
structure AuthOutcome where
  result : AuthResult
  ports : List Nat
  events : List Event
deriving DecidableEq, Repr

/-- The configuration fields of `ServerConfig` consumed by the handshake:
the shared password and the downstream allow-list (empty list means any
destination is accepted). -/
structure ServerConfig where
  password : String
  downstreams : List SockAddr
deriving DecidableEq, Repr

/-- `Server::check_password`: byte-for-byte equality of the two strings.
The source bails with an error on mismatch; the message there contains an
apostrophe, elided here. -/
def check_password (password1 password2 : String) : Bool :=
  password1 == password2

/-- Shallow embedding of `Server::authenticate_connection`
(`src/server.rs` lines 112-211).  `msg` is the first message received on
the first bidirectional stream; `parsed` is the outcome of
`login_info.access_server_addr.parse()` (an external library call);
`bindOk` and `startOk` are the outcomes of `access_server.bind()` and
`access_server.start()`.  The tokio mutex over `access_server_ports` is
acquired at line 159 and, being a lexically scoped guard, released only
when the `ReqInLogin` arm is left, which the trace records faithfully. -/
def authenticate_connection (cfg : ServerConfig) (ports : List Nat)
    (msg : TunnelMessage) (parsed : Option SockAddr)
    (bindOk startOk : Bool) : AuthOutcome :=
  match msg with
  | .ReqOutLogin pw _addr =>
    if check_password cfg.password pw = false then
      ⟨.err "passwords mismatch", ports, []⟩
    else
      match parsed with
      | none => ⟨.err "invalid access server address", ports, []⟩
      | some downstreamAddr =>
        if !cfg.downstreams.isEmpty && !cfg.downstreams.contains downstreamAddr then
          ⟨.err "invalid addr", ports, []⟩
        else
          ⟨.okOut downstreamAddr, ports, [.sendMsg .RespSuccess]⟩
  | .ReqInLogin pw _addr =>
    if check_password cfg.password pw = false then
      ⟨.err "passwords mismatch", ports, []⟩
    else
      match parsed with
      | none => ⟨.err "invalid address", ports, []⟩
      | some upstreamAddr =>
        if ports.contains upstreamAddr.port then
          ⟨.err "remote access port is in use", ports,
            [.lockAcquire,
             .sendMsg (.RespFailure "remote access port is in use"),
             .lockRelease]⟩
        else if bindOk = false then
          ⟨.err "access server failed to bind", ports,
            [.lockAcquire, .ioBind upstreamAddr.port,
             .sendMsg (.RespFailure "access server failed to bind"),
             .lockRelease]⟩
        else if startOk = false then
          ⟨.err "access server failed to start", ports,
            [.lockAcquire, .ioBind upstreamAddr.port, .ioStart,
             .sendMsg (.RespFailure "access server failed to start"),
             .lockRelease]⟩
        else
          ⟨.okIn upstreamAddr.port, ports ++ [upstreamAddr.port],
            [.lockAcquire, .ioBind upstreamAddr.port, .ioStart,
             .sendMsg .RespSuccess, .insertPort upstreamAddr.port,
             .lockRelease]⟩
  | _ => ⟨.err "received unepxected message", ports, []⟩

/-- The port-removal step at the end of `Server::process_in_connection`
(`src/server.rs` lines 289-296): `position(|x| *x == port)` followed by
`Vec::remove(index)` when a position was found, and nothing otherwise. -/
def removePort (ports : List Nat) (port : Nat) : List Nat :=
  match ports.findIdx? (fun x => x == port) with
  | some index => ports.eraseIdx index
  | none => ports

/-- The termination tail of `Server::process_in_connection`
(`src/server.rs` lines 289-302): under the `access_server_ports` lock the
listener port is removed via `removePort`; the listener shutdown result is
discarded with `.ok()` and the function returns `Ok(())` unconditionally,
which the boolean records. -/
def in_session_terminate (ports : List Nat) (port : Nat) : List Nat × Bool :=
  (removePort ports port, true)

/-- Shallow embedding of the forwarder loop of
`Server::process_in_connection` (`src/server.rs` lines 277-287), driven
by the list of items the channel delivers (`some s` a socket, `none` the
quit item; list end models channel closure) and per-socket outcomes of
`open_bi`.  Returns the number of sockets forwarded and whether the loop
was left normally (`true`) rather than through the `open_bi` bail. -/
def in_forwarder_loop (openOk : Nat → Bool) : List (Option Nat) → Nat × Bool
  | [] => (0, true)
  | none :: _ => (0, true)
  | some sock :: rest =>
    if openOk sock then
      let r := in_forwarder_loop openOk rest
      (r.1 + 1, r.2)
    else
      (0, false)

/-- Shallow embedding of `Server::process_in_connection` after the
watcher spawn (`src/server.rs` lines 276-302).  When the forwarder loop
is left normally (channel closed or quit item), the removal tail of
lines 289-296 runs and the function returns `Ok(())`.  When `open_bi`
fails, the `log_and_bail!` at line 284 returns `Err` from the function
at once: the removal tail is skipped and the port vector is returned
unchanged.  The boolean is `true` for the `Ok` return. -/
def process_in_connection (openOk : Nat → Bool) (items : List (Option Nat))
    (ports : List Nat) (port : Nat) : List Nat × Bool :=
  if (in_forwarder_loop openOk items).2 then
    in_session_terminate ports port
  else
    (ports, false)

/-- Server state relevant to the port invariant: the
`access_server_ports` vector, next to the ports of the live In-mode
sessions (a ghost component, one entry per session that has completed an
In login and has not yet terminated). -/
structure ServerSt where
  ports : List Nat
  live : List Nat
deriving DecidableEq, Repr

/-- Effect of one `authenticate_connection` run on the ghost live-session
list: an In-mode success adds one live session holding the bound port;
every other outcome leaves it unchanged. -/
def newLive (live : List Nat) : AuthResult → List Nat
  | .okIn p => live ++ [p]
  | _ => live

/-- Atomic transitions of the server, as the tokio mutex makes them: a
whole `authenticate_connection` run (the lock is held from the membership
test through the push), or the end of one live In-mode session via
`process_in_connection`, which removes the port only when the forwarder
loop was left normally — the `open_bi`-failure bail returns without the
removal, and the session is gone either way. -/
inductive SStep : ServerSt → ServerSt → Prop where
  | auth (s : ServerSt) (cfg : ServerConfig) (msg : TunnelMessage)
      (parsed : Option SockAddr) (bindOk startOk : Bool) :
      SStep s
        ⟨(authenticate_connection cfg s.ports msg parsed bindOk startOk).ports,
         newLive s.live (authenticate_connection cfg s.ports msg parsed bindOk startOk).result⟩
  | terminate (s : ServerSt) (p : Nat) (h : p ∈ s.live)
      (openOk : Nat → Bool) (items : List (Option Nat)) :
      SStep s
        ⟨(process_in_connection openOk items s.ports p).1, s.live.erase p⟩

/-- States reachable from the initial server state (`Server::new` starts
with an empty `access_server_ports` vector and no session). -/
inductive SReachable : ServerSt → Prop where
  | init : SReachable ⟨[], []⟩
  | step {s t : ServerSt} : SReachable s → SStep s t → SReachable t

/-- Certificate/key material produced by `Server::read_cert_and_key`:
either the in-memory self-signed certificate for the domain localhost, or
the bytes of the two files read from disk. -/
inductive CertKeySource where
  | selfSignedLocalhost
  | fromFiles (cert key : List Nat)
deriving DecidableEq, Repr

/-- Result of `read_cert_and_key`: the material, or the error message. -/
inductive CertKeyResult where
  | ok (src : CertKeySource)
  | err (msg : String)
deriving DecidableEq, Repr

/-- Shallow embedding of `Server::read_cert_and_key`
(`src/server.rs` lines 305-322).  `fs` models `std::fs::read` (`none` is
a read failure).  The source branches on `cert_path.is_empty()` alone;
the else branch reads both files and attaches the context messages of the
source to the failures. -/
def read_cert_and_key (fs : String → Option (List Nat))
    (cert_path key_path : String) : CertKeyResult :=
  if cert_path = "" then
    .ok .selfSignedLocalhost
  else
    match fs cert_path with
    | none => .err "failed to read cert file"
    | some cert =>
      match fs key_path with
      | none => .err "failed to read key file"
      | some key => .ok (.fromFiles cert key)

/-- The certificate phase of `Server::start` (`src/server.rs` lines
30-32): the result of `read_cert_and_key` with the added context
`failed to read certificate or key`; an error here propagates out of
`start` (fatal). -/
def start_cert_phase (fs : String → Option (List Nat))
    (cert_path key_path : String) : CertKeyResult :=
  match read_cert_and_key fs cert_path key_path with
  | .err e => .err ("failed to read certificate or key: " ++ e)
  | .ok src => .ok src

/-- Outcomes of `client_conn.accept_bi()` in the Out-mode session loop:
the two connection errors handled specially, any other error, or a
successfully accepted stream. -/
inductive AcceptOutcome where
  | timedOut
  | applicationClosed
  | otherErr (e : String)
  | streamOk (streamId : Nat)
deriving DecidableEq, Repr

/-- Exit status of the Out-mode session loop: `Ok(())`, an error return,
or still inside the loop (the supplied outcome list ran out). -/
inductive OutExit where
  | normal
  | failed (e : String)
  | stillRunning
deriving DecidableEq, Repr

/-- Shallow embedding of the loop of `Server::process_out_connection`
(`src/server.rs` lines 220-256), driven by the list of successive
`accept_bi` outcomes.  Returns the exit status and the number of copy
tasks spawned (one per accepted stream). -/
def process_out_connection : List AcceptOutcome → OutExit × Nat
  | [] => (.stillRunning, 0)
  | .timedOut :: _ => (.normal, 0)
  | .applicationClosed :: _ => (.normal, 0)
  | .otherErr e :: _ => (.failed ("failed to open bi_streams, err: " ++ e), 0)
  | .streamOk _ :: rest =>
    let r := process_out_connection rest
    (r.1, r.2 + 1)

/-- Outcomes of `TunnelMessage::recv` on the ControlChannel receive half:
a message, end of stream, or a receive error. -/
inductive RecvOutcome where
  | gotMsg (m : TunnelMessage)
  | eof
  | recvErr (e : String)
deriving Repr

/-- Shallow embedding of the control-watcher task spawned by
`Server::process_in_connection` (`src/server.rs` lines 265-274): the
receive outcome is matched by a wildcard arm, so every outcome sends the
single quit item `None` on the access-server channel (`none` here); the
payload never influences the result. -/
def control_watcher (outcome : RecvOutcome) : List (Option Nat) :=
  match outcome with
  | _ => [none]


/-- Scan of an event trace checking the claim that the
`access_server_ports` lock is never held across an I/O operation: `held`
is the lock state entering the trace; every send, bind or start event
must find the lock released, while `insertPort` (in-memory vector
mutation) is allowed under the lock. -/
def noIoWhileLocked (held : Bool) : List Event → Bool
  | [] => true
  | .lockAcquire :: rest => noIoWhileLocked true rest
  | .lockRelease :: rest => noIoWhileLocked false rest
  | .sendMsg _ :: rest => !held && noIoWhileLocked held rest
  | .ioBind _ :: rest => !held && noIoWhileLocked held rest
  | .ioStart :: rest => !held && noIoWhileLocked held rest
  | .insertPort _ :: rest => noIoWhileLocked held rest

/-- The events of the `bind_and_start` accept loop of `TcpServer`
(`src/tcp/tcp_server.rs`): `tcp_listener.accept()` yields a socket or an
error. -/
inductive AcceptEv where
  | conn (sock : Nat)
  | acceptErr (e : String)
deriving DecidableEq, Repr

/-- Outcome of `tcp_sender.send_timeout` for an accepted socket. -/
inductive SendOutcome where
  | sent
  | sendTimedOut
  | chanClosed
deriving DecidableEq, Repr

/-- Observable actions of one pass of the accept loop. -/
inductive TaskAction where
  | dropSock (sock : Nat)
  | deliver (sock : Nat)
  | logAcceptErr (e : String)
  | quitLoop
deriving DecidableEq, Repr

/-- The send timeout of the accept loop, in milliseconds
(`Duration::from_millis(3000)` in `src/tcp/tcp_server.rs` line 55). -/
def sendTimeoutMillis : Nat := 3000

/-- The bounded capacity of the socket channel (`channel(4)` in
`src/tcp/tcp_server.rs` line 36). -/
def tcpChannelCapacity : Nat := 4

/-- Shallow embedding of the accept task spawned by
`TcpServer::bind_and_start` (`src/tcp/tcp_server.rs` lines 44-76).  Each
list entry carries one accept outcome, the value of the `active` flag the
task reads for it, and the outcome of the timed channel send.  An
inactive socket is dropped and the loop continues; a send timeout drops
the socket and the loop continues; a closed channel breaks the loop (the
remaining entries are never processed); an accept error is logged and the
loop continues. -/
def tcp_server_accept_loop : List (AcceptEv × Bool × SendOutcome) → List TaskAction
  | [] => []
  | (.conn sock, active, sendOut) :: rest =>
    if active = false then
      .dropSock sock :: tcp_server_accept_loop rest
    else
      match sendOut with
      | .sent => .deliver sock :: tcp_server_accept_loop rest
      | .sendTimedOut => .dropSock sock :: tcp_server_accept_loop rest
      | .chanClosed => [.quitLoop]
  | (.acceptErr e, _, _) :: rest => .logAcceptErr e :: tcp_server_accept_loop rest

/-- State of a `TcpServer` value (`src/tcp/tcp_server.rs`): the bound
address, the receiver half of the channel (`Option<Receiver<..>>`,
modelled as `Option Unit`), and the shared `active` flag. -/
structure TcpServerSt where
  addr : SockAddr
  tcpReceiver : Option Unit
  active : Bool
deriving DecidableEq, Repr

/-- Result of a `TcpServer` method call, separating a normal return from
a panic of the task that called it. -/
inductive CallResult (α : Type) where
  | ok (value : α)
  | panicked (msg : String)
deriving DecidableEq, Repr

namespace TcpServerSt

/-- `TcpServer::shutdown` (`src/tcp/tcp_server.rs` lines 86-98): take and
drop the receiver half, set `active` to true, then dial the bound address
once.  Returns the new state and the dialled address. -/
def shutdown (s : TcpServerSt) : TcpServerSt × SockAddr :=
  ({ s with tcpReceiver := none, active := true }, s.addr)

/-- `TcpServer::recv` (`src/tcp/tcp_server.rs` lines 109-111):
`self.tcp_receiver.as_mut().unwrap().recv().await`.  The unconditional
`unwrap` panics when the receiver half is gone; otherwise the call
returns whatever the channel delivers (`incoming`, an oracle). -/
def recv (s : TcpServerSt) (incoming : Option Nat) : CallResult (Option Nat) :=
  match s.tcpReceiver with
  | none => .panicked "called unwrap on a none value"
  | some _ => .ok incoming

/-- `TcpServer::addr` (`src/tcp/tcp_server.rs` lines 105-107): returns
the stored address; no fallible operation. -/
def addr_call (s : TcpServerSt) : CallResult SockAddr :=
  .ok s.addr

/-- `TcpServer::pause` (`src/tcp/tcp_server.rs` lines 100-103): sends
`TcpMessage::Quit` on the sender half and discards the send result with
`.ok()`; it never unwraps the receiver. -/
def pause (s : TcpServerSt) : CallResult TcpServerSt :=
  .ok s

/-- `TcpServer::set_active` (`src/tcp/tcp_server.rs` lines 117-119):
writes the shared flag. -/
def set_active (s : TcpServerSt) (flag : Bool) : CallResult TcpServerSt :=
  .ok { s with active := flag }

/-- `TcpServer::clone_tcp_sender` (`src/tcp/tcp_server.rs` lines
113-115): clones the sender half; no fallible operation. -/
def clone_tcp_sender (s : TcpServerSt) : CallResult TcpServerSt :=
  .ok s

end TcpServerSt

/-! ## Helper lemmas -/

/-- The position-then-remove step of `process_in_connection` is exactly
removal of the first occurrence. -/
theorem removePort_eq_erase (ports : List Nat) (p : Nat) :
    removePort ports p = ports.erase p := by
  induction ports with
  | nil => rfl
  | cons h t ih =>
    by_cases hp : (h == p) = true
    · have hpe : h = p := eq_of_beq hp
      subst hpe
      rw [removePort, List.findIdx?_cons, if_pos (by simp)]
      simp
    · have hne : ¬((h : Nat) == p) := by simp [hp]
      rw [removePort, List.findIdx?_cons, if_neg (by simp_all), List.findIdx?_succ,
        List.erase_cons_tail hne]
      cases hfind : t.findIdx? (fun x => x == p) with
      | none =>
        have ht : removePort t p = t := by rw [removePort, hfind]
        have hte : t.erase p = t := by rw [← ih, ht]
        simp [hte]
      | some i =>
        have ht : removePort t p = t.eraseIdx i := by rw [removePort, hfind]
        have hte : t.erase p = t.eraseIdx i := by rw [← ih, ht]
        simp [hte]

/-! ## Claim theorems -/

/-- C10: at In-mode session termination, the port removal from
`allocated_ports` removes exactly the first occurrence of the listener
port when it is present (the count drops by one, the length by one); when
the port is absent the vector is unchanged; and the termination step
reports success in both cases. -/
theorem in_session_terminate_removes_once (ports : List Nat) (p : Nat) :
    removePort ports p = ports.erase p ∧
    (removePort ports p).count p = ports.count p - 1 ∧
    (removePort ports p).length =
      (if p ∈ ports then ports.length - 1 else ports.length) ∧
    removePort ports p = (if p ∈ ports then ports.erase p else ports) ∧
    (in_session_terminate ports p).2 = true := by
  refine ⟨removePort_eq_erase ports p, ?_, ?_, ?_, rfl⟩
  · rw [removePort_eq_erase, List.count_erase_self]
  · rw [removePort_eq_erase, List.length_erase]
  · rw [removePort_eq_erase]
    by_cases hm : p ∈ ports
    · rw [if_pos hm]
    · rw [if_neg hm, List.erase_of_not_mem hm]

/-- C9: after `TcpServer::shutdown` the receiver `Option` is empty and a
subsequent `recv` panics on its unconditional `unwrap`, while `recv`
before shutdown (receiver present) returns normally, and `addr`, `pause`,
`set_active` and `clone_tcp_sender` all still return normally on the
shut-down server. -/
theorem tcp_server_recv_after_shutdown_panics (s : TcpServerSt)
    (incoming : Option Nat) (a : SockAddr) (act : Bool) (flag : Bool) :
    (s.shutdown.1.tcpReceiver = none) ∧
    (s.shutdown.1.recv incoming = .panicked "called unwrap on a none value") ∧
    (TcpServerSt.recv ⟨a, some (), act⟩ incoming = .ok incoming) ∧
    (s.shutdown.1.addr_call = .ok s.addr) ∧
    (s.shutdown.1.pause = .ok s.shutdown.1) ∧
    (s.shutdown.1.set_active flag =
      .ok { s.shutdown.1 with active := flag }) ∧
    (s.shutdown.1.clone_tcp_sender = .ok s.shutdown.1) := by
  exact ⟨rfl, rfl, rfl, rfl, rfl, rfl, rfl⟩

/-- C8: in the accept loop of `TcpServer::bind_and_start`, an accepted
socket is dropped and the loop continues when `active` is false; when
`active` is true the socket is sent with the 3000 ms timeout and the loop
continues on success; a send timeout drops the socket and the loop
continues; a closed channel ends the accept task, processing nothing
further. -/
theorem tcp_server_accept_loop_spec
    (rest : List (AcceptEv × Bool × SendOutcome)) (sock : Nat)
    (sendOut : SendOutcome) :
    tcp_server_accept_loop ((.conn sock, false, sendOut) :: rest) =
      .dropSock sock :: tcp_server_accept_loop rest ∧
    tcp_server_accept_loop ((.conn sock, true, .sent) :: rest) =
      .deliver sock :: tcp_server_accept_loop rest ∧
    tcp_server_accept_loop ((.conn sock, true, .sendTimedOut) :: rest) =
      .dropSock sock :: tcp_server_accept_loop rest ∧
    tcp_server_accept_loop ((.conn sock, true, .chanClosed) :: rest) =
      [.quitLoop] ∧
    sendTimeoutMillis = 3000 := by
  exact ⟨rfl, rfl, rfl, rfl, rfl⟩

/-- C7: the Out-mode session loop returns `Ok` when `accept_bi` yields
`TimedOut` or `ApplicationClosed`, returns the logged error on any other
accept error, and a successful accept never ends the loop: it spawns one
more copy task and continues with the remaining outcomes. -/
theorem process_out_connection_exit_spec (l : List AcceptOutcome)
    (e : String) (sid : Nat) :
    process_out_connection (.timedOut :: l) = (.normal, 0) ∧
    process_out_connection (.applicationClosed :: l) = (.normal, 0) ∧
    process_out_connection (.otherErr e :: l) =
      (.failed ("failed to open bi_streams, err: " ++ e), 0) ∧
    process_out_connection (.streamOk sid :: l) =
      ((process_out_connection l).1, (process_out_connection l).2 + 1) := by
  exact ⟨rfl, rfl, rfl, rfl⟩

/-- C6: the control watcher of an In-mode session reacts to every receive
outcome on the ControlChannel identically, enqueuing exactly the one quit
item `None`, and on receiving that item the forwarder loop stops at once,
forwarding nothing further. -/
theorem control_watcher_quits_on_any_outcome (o o₂ : RecvOutcome)
    (openOk : Nat → Bool) (rest : List (Option Nat)) :
    control_watcher o = [none] ∧
    control_watcher o = control_watcher o₂ ∧
    in_forwarder_loop openOk (none :: rest) = (0, true) := by
  exact ⟨rfl, rfl, rfl⟩

/-- C2: an In-mode login whose requested port is already in
`allocated_ports` gets `RespFailure` with reason
`remote access port is in use` on the handshake stream, fails the
handshake, attempts no TCP bind, and leaves the port vector unchanged. -/
theorem in_login_port_collision_rejected (cfg : ServerConfig)
    (ports : List Nat) (a : String) (addr : SockAddr) (bindOk startOk : Bool)
    (h : ports.contains addr.port = true) :
    (authenticate_connection cfg ports (.ReqInLogin cfg.password a)
        (some addr) bindOk startOk).result = .err "remote access port is in use" ∧
    Event.sendMsg (.RespFailure "remote access port is in use") ∈
      (authenticate_connection cfg ports (.ReqInLogin cfg.password a)
        (some addr) bindOk startOk).events ∧
    (∀ q, Event.ioBind q ∉
      (authenticate_connection cfg ports (.ReqInLogin cfg.password a)
        (some addr) bindOk startOk).events) ∧
    (authenticate_connection cfg ports (.ReqInLogin cfg.password a)
        (some addr) bindOk startOk).ports = ports := by
  have hm : addr.port ∈ ports := by simpa using h
  refine ⟨?_, ?_, ?_, ?_⟩ <;>
    simp [authenticate_connection, check_password, hm]

/-- C2 witness: a concrete collision, port 7000 already allocated. -/
theorem in_login_port_collision_rejected_witness :
    ([7000] : List Nat).contains 7000 = true ∧
    (authenticate_connection ⟨"p", []⟩ [7000]
        (.ReqInLogin "p" "127.0.0.1:7000") (some ⟨"127.0.0.1", 7000⟩)
        true true).result = .err "remote access port is in use" :=
  ⟨by decide,
    (in_login_port_collision_rejected ⟨"p", []⟩ [7000] "127.0.0.1:7000"
      ⟨"127.0.0.1", 7000⟩ true true (by decide)).1⟩

/-- C5 counterexample: an Out-mode login with the correct password and a
destination outside the non-empty allow-list fails the handshake, but the
event trace is empty — no failure response is sent on the stream, contrary
to the claim. -/
theorem out_login_disallowed_counterexample :
    (authenticate_connection ⟨"p", [⟨"127.0.0.1", 9000⟩]⟩ []
        (.ReqOutLogin "p" "127.0.0.1:9001") (some ⟨"127.0.0.1", 9001⟩)
        true true).events = [] ∧
    (authenticate_connection ⟨"p", [⟨"127.0.0.1", 9000⟩]⟩ []
        (.ReqOutLogin "p" "127.0.0.1:9001") (some ⟨"127.0.0.1", 9001⟩)
        true true).result = .err "invalid addr" := by
  exact ⟨rfl, rfl⟩

/-- C5 amended: an Out-mode login with correct password, parsed
destination, non-empty allow-list and a destination outside it is
per-connection fatal — the handshake fails with `invalid addr` — but the
server performs no I/O at all for it: no response of any kind is sent and
the port vector is untouched. -/
theorem out_login_disallowed_fatal_no_response (cfg : ServerConfig)
    (ports : List Nat) (a : String) (dst : SockAddr) (bindOk startOk : Bool)
    (hne : cfg.downstreams ≠ []) (hnm : dst ∉ cfg.downstreams) :
    authenticate_connection cfg ports (.ReqOutLogin cfg.password a)
        (some dst) bindOk startOk = ⟨.err "invalid addr", ports, []⟩ := by
  have hempty : cfg.downstreams.isEmpty = false := by
    cases hds : cfg.downstreams with
    | nil => exact absurd hds hne
    | cons x xs => rfl
  have hcont : cfg.downstreams.contains dst = false := by
    cases hc : cfg.downstreams.contains dst with
    | false => rfl
    | true => exact absurd (by simpa using hc) hnm
  simp [authenticate_connection, check_password, hempty, hcont, hnm]

/-- C5 amended witness: concrete allow-list violation. -/
theorem out_login_disallowed_fatal_no_response_witness :
    (⟨"p", [⟨"127.0.0.1", 9000⟩]⟩ : ServerConfig).downstreams ≠ [] ∧
    (⟨"127.0.0.1", 9001⟩ : SockAddr) ∉
      (⟨"p", [⟨"127.0.0.1", 9000⟩]⟩ : ServerConfig).downstreams ∧
    authenticate_connection ⟨"p", [⟨"127.0.0.1", 9000⟩]⟩ []
        (.ReqOutLogin "p" "x") (some ⟨"127.0.0.1", 9001⟩) true true
      = ⟨.err "invalid addr", [], []⟩ :=
  ⟨by decide, by decide,
    out_login_disallowed_fatal_no_response ⟨"p", [⟨"127.0.0.1", 9000⟩]⟩ []
      "x" ⟨"127.0.0.1", 9001⟩ true true (by decide) (by decide)⟩

/-- C4 counterexample: with an empty `cert_path` but a non-empty
`key_path`, `read_cert_and_key` still takes the in-memory self-signed
branch — the branch is selected on `cert_path` alone, contrary to the
claim that both paths must be empty. -/
theorem read_cert_self_signed_counterexample :
    read_cert_and_key (fun _ => none) "" "key.pem" = .ok .selfSignedLocalhost ∧
    "key.pem" ≠ "" := by
  exact ⟨rfl, by decide⟩

/-- C4 amended: the self-signed branch is taken iff `cert_path` is empty
(`key_path` is not consulted for the branch); otherwise both files are
read from disk, and a read failure of `read_cert_and_key` surfaces as a
fatal error of `start` with the added context. -/
theorem read_cert_and_key_branch_spec (fs : String → Option (List Nat))
    (cert_path key_path : String) (c k : List Nat) :
    (read_cert_and_key fs cert_path key_path = .ok .selfSignedLocalhost ↔
      cert_path = "") ∧
    (read_cert_and_key fs cert_path key_path = .ok (.fromFiles c k) →
      fs cert_path = some c ∧ fs key_path = some k ∧ cert_path ≠ "") ∧
    (∀ e, read_cert_and_key fs cert_path key_path = .err e →
      start_cert_phase fs cert_path key_path =
        .err ("failed to read certificate or key: " ++ e)) := by
  by_cases hcp : cert_path = ""
  · subst hcp
    refine ⟨by simp [read_cert_and_key], ?_, ?_⟩
    · intro hctr
      simp [read_cert_and_key] at hctr
    · intro e hctr
      simp [read_cert_and_key] at hctr
  · cases hfc : fs cert_path with
    | none =>
      refine ⟨?_, ?_, ?_⟩
      · simp [read_cert_and_key, hcp, hfc]
      · intro hctr
        simp [read_cert_and_key, hcp, hfc] at hctr
      · intro e he
        simp only [read_cert_and_key, hcp, if_neg hcp, hfc] at he
        cases he
        simp [start_cert_phase, read_cert_and_key, hcp, hfc]
    | some cBytes =>
      cases hfk : fs key_path with
      | none =>
        refine ⟨?_, ?_, ?_⟩
        · simp [read_cert_and_key, hcp, hfc, hfk]
        · intro hctr
          simp [read_cert_and_key, hcp, hfc, hfk] at hctr
        · intro e he
          simp only [read_cert_and_key, hcp, if_neg hcp, hfc, hfk] at he
          cases he
          simp [start_cert_phase, read_cert_and_key, hcp, hfc, hfk]
      | some kBytes =>
        refine ⟨?_, ?_, ?_⟩
        · simp [read_cert_and_key, hcp, hfc, hfk]
        · intro hok
          simp only [read_cert_and_key, if_neg hcp, hfc, hfk,
            CertKeyResult.ok.injEq, CertKeySource.fromFiles.injEq] at hok
          obtain ⟨h1, h2⟩ := hok
          subst h1
          subst h2
          exact ⟨rfl, rfl, hcp⟩
        · intro e he
          simp [read_cert_and_key, hcp, hfc, hfk] at he

/-- C4 amended witness: the disk branch with both reads succeeding, and
the fatal propagation with a failing read. -/
theorem read_cert_and_key_branch_spec_witness :
    ((fun _ => some [1]) "cert.pem" = some [1] ∧
      (fun _ => some [1]) "key.pem" = some [1] ∧ "cert.pem" ≠ "") ∧
    start_cert_phase (fun _ => none) "cert.pem" "key.pem" =
      .err ("failed to read certificate or key: " ++ "failed to read cert file") :=
  ⟨(read_cert_and_key_branch_spec (fun _ => some [1]) "cert.pem" "key.pem"
      [1] [1]).2.1 (by decide),
    (read_cert_and_key_branch_spec (fun _ => none) "cert.pem" "key.pem"
      [] []).2.2 "failed to read cert file" (by decide)⟩

/-- C3 counterexample: in a successful In-mode login the trace of the
handshake performs the TCP bind, the accept-task start and the success
response while the `access_server_ports` lock is held, so the lock is
held across I/O, contrary to the claim. -/
theorem lock_across_io_counterexample :
    noIoWhileLocked false
      (authenticate_connection ⟨"p", []⟩ []
        (.ReqInLogin "p" "127.0.0.1:7000") (some ⟨"127.0.0.1", 7000⟩)
        true true).events = false := by
  decide

/-- C3 amended: in every In-mode handshake that reaches the port check,
the `access_server_ports` lock is acquired first and released only when
the handshake arm completes: the whole remaining trace — including at
least one response send, and the bind/start attempts when they happen —
sits strictly between the one acquire and the one release.  This is what
makes check-bind-insert atomic with respect to other logins. -/
theorem in_login_lock_spans_critical_section (cfg : ServerConfig)
    (ports : List Nat) (a : String) (addr : SockAddr) (bindOk startOk : Bool) :
    ∃ mid,
      (authenticate_connection cfg ports (.ReqInLogin cfg.password a)
          (some addr) bindOk startOk).events =
        .lockAcquire :: mid ++ [.lockRelease] ∧
      (∀ e ∈ mid, e ≠ Event.lockAcquire ∧ e ≠ Event.lockRelease) ∧
      (∃ m, Event.sendMsg m ∈ mid) := by
  by_cases hm : addr.port ∈ ports
  · refine ⟨[.sendMsg (.RespFailure "remote access port is in use")], ?_, ?_, ?_⟩
    · simp [authenticate_connection, check_password, hm]
    · intro e he
      simp only [List.mem_cons, List.not_mem_nil, or_false] at he
      subst he
      exact ⟨by simp, by simp⟩
    · exact ⟨.RespFailure "remote access port is in use", by simp⟩
  · cases bindOk with
    | false =>
      refine ⟨[.ioBind addr.port,
        .sendMsg (.RespFailure "access server failed to bind")], ?_, ?_, ?_⟩
      · simp [authenticate_connection, check_password, hm]
      · intro e he
        simp only [List.mem_cons, List.not_mem_nil, or_false] at he
        rcases he with he | he
        all_goals (subst he; exact ⟨by simp, by simp⟩)
      · exact ⟨.RespFailure "access server failed to bind", by simp⟩
    | true =>
      cases startOk with
      | false =>
        refine ⟨[.ioBind addr.port, .ioStart,
          .sendMsg (.RespFailure "access server failed to start")], ?_, ?_, ?_⟩
        · simp [authenticate_connection, check_password, hm]
        · intro e he
          simp only [List.mem_cons, List.not_mem_nil, or_false] at he
          rcases he with he | he | he
          all_goals (subst he; exact ⟨by simp, by simp⟩)
        · exact ⟨.RespFailure "access server failed to start", by simp⟩
      | true =>
        refine ⟨[.ioBind addr.port, .ioStart, .sendMsg .RespSuccess,
          .insertPort addr.port], ?_, ?_, ?_⟩
        · simp [authenticate_connection, check_password, hm]
        · intro e he
          simp only [List.mem_cons, List.not_mem_nil, or_false] at he
          rcases he with he | he | he | he
          all_goals (subst he; exact ⟨by simp, by simp⟩)
        · exact ⟨.RespSuccess, by simp⟩

/-- Effect of one handshake run on the port vector: either it is an
In-mode success that appends exactly the new port, which was not yet
present, or it leaves the vector — and the live-session list — unchanged. -/
theorem auth_ports_spec (cfg : ServerConfig) (ports : List Nat)
    (msg : TunnelMessage) (parsed : Option SockAddr) (bindOk startOk : Bool) :
    (∃ p,
      (authenticate_connection cfg ports msg parsed bindOk startOk).result = .okIn p ∧
      (authenticate_connection cfg ports msg parsed bindOk startOk).ports = ports ++ [p] ∧
      p ∉ ports) ∨
    ((authenticate_connection cfg ports msg parsed bindOk startOk).ports = ports ∧
      ∀ l, newLive l (authenticate_connection cfg ports msg parsed bindOk startOk).result = l) := by
  cases msg with
  | RespSuccess => right; exact ⟨rfl, fun l => rfl⟩
  | RespFailure r => right; exact ⟨rfl, fun l => rfl⟩
  | otherMsg => right; exact ⟨rfl, fun l => rfl⟩
  | ReqOutLogin pw a =>
    right
    by_cases hpw : check_password cfg.password pw = false
    · simp only [authenticate_connection, if_pos hpw]
      exact ⟨by simp, fun l => rfl⟩
    · cases parsed with
      | none =>
        simp only [authenticate_connection, if_neg hpw]
        exact ⟨by simp, fun l => rfl⟩
      | some d =>
        simp only [authenticate_connection, if_neg hpw]
        split
        · exact ⟨rfl, fun l => rfl⟩
        · exact ⟨rfl, fun l => rfl⟩
  | ReqInLogin pw a =>
    by_cases hpw : check_password cfg.password pw = false
    · right
      simp only [authenticate_connection, if_pos hpw]
      exact ⟨by simp, fun l => rfl⟩
    · cases parsed with
      | none =>
        right
        simp only [authenticate_connection, if_neg hpw]
        exact ⟨by simp, fun l => rfl⟩
      | some addr =>
        by_cases hcont : ports.contains addr.port = true
        · right
          simp only [authenticate_connection, if_neg hpw, if_pos hcont]
          exact ⟨by simp, fun l => rfl⟩
        · cases bindOk with
          | false =>
            right
            simp only [authenticate_connection, if_neg hpw, if_neg hcont]
            exact ⟨by simp, fun l => rfl⟩
          | true =>
            cases startOk with
            | false =>
              right
              simp only [authenticate_connection, if_neg hpw, if_neg hcont]
              exact ⟨by simp, fun l => rfl⟩
            | true =>
              left
              refine ⟨addr.port, ?_, ?_, by simpa using hcont⟩
              · simp only [authenticate_connection, if_neg hpw, if_neg hcont]
                rfl
              · simp only [authenticate_connection, if_neg hpw, if_neg hcont]
                rfl

/-- Inductive invariant of the server: the `access_server_ports` vector
and the live-session list are each duplicate-free, and every live
session port is in the vector.  The converse containment fails: the
`open_bi`-failure exit of `process_in_connection` ends the session
without removing its port. -/
theorem sreachable_inv (s : ServerSt) (h : SReachable s) :
    s.ports.Nodup ∧ s.live.Nodup ∧ ∀ p ∈ s.live, p ∈ s.ports := by
  induction h with
  | init => exact ⟨List.nodup_nil, List.nodup_nil, by simp⟩
  | @step u t h1 h2 ih =>
    obtain ⟨hpn, hln, hsub⟩ := ih
    cases h2 with
    | auth cfg msg parsed bindOk startOk =>
      rcases auth_ports_spec cfg u.ports msg parsed bindOk startOk with
        ⟨p, hres, hports, hmem⟩ | ⟨hports, hlive⟩
      · have hmemL : p ∉ u.live := fun hc => hmem (hsub p hc)
        refine ⟨?_, ?_, ?_⟩
        · show (authenticate_connection cfg u.ports msg parsed bindOk startOk).ports.Nodup
          rw [hports, List.nodup_append]
          refine ⟨hpn, List.nodup_singleton p, ?_⟩
          intro x hx hx'
          simp only [List.mem_singleton] at hx'
          subst hx'
          exact hmem hx
        · show (newLive u.live (authenticate_connection cfg u.ports msg parsed bindOk startOk).result).Nodup
          rw [hres]
          simp only [newLive]
          rw [List.nodup_append]
          refine ⟨hln, List.nodup_singleton p, ?_⟩
          intro x hx hx'
          simp only [List.mem_singleton] at hx'
          subst hx'
          exact hmemL hx
        · show ∀ q ∈ newLive u.live (authenticate_connection cfg u.ports msg parsed bindOk startOk).result,
            q ∈ (authenticate_connection cfg u.ports msg parsed bindOk startOk).ports
          rw [hres, hports]
          simp only [newLive]
          intro q hq
          rw [List.mem_append] at hq
          rw [List.mem_append]
          rcases hq with hq | hq
          · exact Or.inl (hsub q hq)
          · exact Or.inr hq
      · refine ⟨?_, ?_, ?_⟩
        · show (authenticate_connection cfg u.ports msg parsed bindOk startOk).ports.Nodup
          rw [hports]
          exact hpn
        · show (newLive u.live (authenticate_connection cfg u.ports msg parsed bindOk startOk).result).Nodup
          rw [hlive u.live]
          exact hln
        · show ∀ q ∈ newLive u.live (authenticate_connection cfg u.ports msg parsed bindOk startOk).result,
            q ∈ (authenticate_connection cfg u.ports msg parsed bindOk startOk).ports
          rw [hlive u.live, hports]
          exact hsub
    | terminate p hp openOk items =>
      refine ⟨?_, List.Nodup.erase p hln, ?_⟩
      · show (process_in_connection openOk items u.ports p).1.Nodup
        by_cases hf : (in_forwarder_loop openOk items).2 = true
        · simp only [process_in_connection, in_session_terminate, if_pos hf]
          rw [removePort_eq_erase]
          exact List.Nodup.erase p hpn
        · simp only [process_in_connection, if_neg hf]
          exact hpn
      · show ∀ q ∈ u.live.erase p, q ∈ (process_in_connection openOk items u.ports p).1
        intro q hq
        obtain ⟨hqp, hql⟩ := (List.Nodup.mem_erase_iff hln).mp hq
        by_cases hf : (in_forwarder_loop openOk items).2 = true
        · simp only [process_in_connection, in_session_terminate, if_pos hf]
          rw [removePort_eq_erase]
          exact (List.mem_erase_of_ne hqp).mpr (hsub q hql)
        · simp only [process_in_connection, if_neg hf]
          exact hsub q hql

/-- C1 (code bug, `src/server.rs` line 284): the claim — and the spec,
which requires the port to be freed before the session task returns on
every exit of the forwarder loop, stream-open failure included — does
not hold in the code.  When `open_bi` fails, `log_and_bail!` returns
`Err` from `process_in_connection` before the removal of lines 289-296,
so the port stays in `allocated_ports` with no live session, permanently
(nothing else removes it).  Concretely: the forwarder that receives one
socket and fails to open a stream keeps the vector unchanged and returns
`Err`, and after one successful In login for port 7000 followed by that
exit, the state with `allocated_ports = [7000]` and no live session is
reachable — the claimed iff and the removed-before-return guarantee are
both violated there. -/
theorem allocated_ports_leak_on_open_bi_failure :
    process_in_connection (fun _ => false) [some 5] [7000] 7000 = ([7000], false) ∧
    SReachable ⟨[7000], []⟩ ∧
    7000 ∈ (⟨[7000], []⟩ : ServerSt).ports ∧
    (⟨[7000], []⟩ : ServerSt).live = [] := by
  have hstep1 : SStep ⟨[], []⟩ ⟨[7000], [7000]⟩ := by
    have h := SStep.auth ⟨[], []⟩ ⟨"p", []⟩ (.ReqInLogin "p" "a")
      (some ⟨"h", 7000⟩) true true
    have he : (⟨(authenticate_connection ⟨"p", []⟩ [] (.ReqInLogin "p" "a")
        (some ⟨"h", 7000⟩) true true).ports,
      newLive [] (authenticate_connection ⟨"p", []⟩ [] (.ReqInLogin "p" "a")
        (some ⟨"h", 7000⟩) true true).result⟩ : ServerSt)
        = ⟨[7000], [7000]⟩ := by decide
    exact he ▸ h
  have hstep2 : SStep ⟨[7000], [7000]⟩ ⟨[7000], []⟩ := by
    have h := SStep.terminate ⟨[7000], [7000]⟩ 7000 (by decide)
      (fun _ => false) [some 5]
    have he : (⟨(process_in_connection (fun _ => false) [some 5]
        (⟨[7000], [7000]⟩ : ServerSt).ports 7000).1,
      (⟨[7000], [7000]⟩ : ServerSt).live.erase 7000⟩ : ServerSt)
        = ⟨[7000], []⟩ := by decide
    exact he ▸ h
  exact ⟨rfl, .step (.step .init hstep1) hstep2, by decide, rfl⟩

end Rstun
